import Mathlib

/-!
Verification of the SQL crypto-store (`src/cryptostore.rs`) against its
natural-language specification.

The development shallowly embeds the store: domain values are plain
structures, database statements are `DbOp` records (query name plus bound
parameters), the in-memory caches are lists, and the cipher of the at-rest
envelope is a record of functions.  Fallible external collaborators (the SQL
row fetches and the crypto pickling/unpickling primitives) are passed in as
explicit arguments, exactly where the Rust code calls out to them.
-/

namespace SqlCryptoStore

/-- Byte strings, as in the Rust `&[u8]` / `Vec<u8>` parameters. -/
abbrev Bytes := List Nat

/-- The bytes of a string, standing for Rust's `as_bytes()`. -/
def strBytes (s : String) : Bytes := s.data.map Char.toNat

/-- Model of `matrix_sdk_store_encryption::StoreCipher`: a deterministic
column-scoped key-blinding function `hash_key` and a value encryptor. -/
structure StoreCipher where
  hashKey : String → Bytes → Bytes
  encryptValue : Bytes → Bytes

/-- `CryptostoreData::encode_key` (cryptostore.rs lines 105-114): with a
cipher installed the key is blinded by `hash_key(table_name, key)`; without
one the raw key bytes pass through. -/
def encode_key (cipher : Option StoreCipher) (tableName : String) (key : Bytes) : Bytes :=
  match cipher with
  | none => key
  | some c => c.hashKey tableName key

/-- `CryptostoreData::encode_value` (lines 120-127): with a cipher the value
is encrypted (the bincode serialisation layer is absorbed into
`encryptValue`); without one it is stored as its plain serialisation. -/
def encode_value (cipher : Option StoreCipher) (value : Bytes) : Bytes :=
  match cipher with
  | none => value
  | some c => c.encryptValue value

/-- A parameter bound to a database statement.  The Rust code binds either
byte slices (`as_ref()` of a possibly-blinded key, or an encoded value),
plain `String`s, or booleans. -/
inductive DbParam where
  | blob (b : Bytes)
  | str (s : String)
  | boolean (b : Bool)
deriving DecidableEq

/-- A database statement execution: the query from the backend catalogue and
the parameters bound to it, in binding order. -/
structure DbOp where
  query : String
  params : List DbParam
deriving DecidableEq

/-- An Olm session as the store sees it: the peer's curve25519 sender key
(already in base64 form, as `sender_key().to_base64()` yields) and the
opaque pickle produced by the external crypto library. -/
structure Session where
  senderKey : String
  pickle : Bytes
deriving DecidableEq

/-- An inbound Megolm group session: keyed by (room id, sender key, session
id), carrying the `backed_up` flag and its pickle. -/
structure InboundGroupSession where
  roomId : String
  senderKey : String
  sessionId : String
  backed_up : Bool
  pickle : Bytes
deriving DecidableEq

/-- An outbound Megolm group session, keyed by room id. -/
structure OutboundGroupSession where
  roomId : String
  pickle : Bytes
deriving DecidableEq

/-- An Olm message hash (`OlmMessageHash`): sender key and hash, both plain
strings in the Rust struct. -/
structure MessageHash where
  senderKey : String
  hash : String
deriving DecidableEq

/-- A read-only device record keyed by (user id, device id); `info` stands
for its serialised body. -/
structure Device where
  userId : String
  deviceId : String
  info : Bytes
deriving DecidableEq

/-- A read-only user identity keyed by user id. -/
structure UserIdentity where
  userId : String
  data : Bytes
deriving DecidableEq

/-- A gossip (key) request: recipient, request id, the `info.as_key()`
descriptor, the `sent_out` flag and its serialised body. -/
structure GossipRequest where
  requestRecipient : String
  requestId : String
  infoKey : String
  sentOut : Bool
  data : Bytes
deriving DecidableEq

/-- The device account: owning user, device id, identity keys and pickle. -/
structure Account where
  userId : String
  deviceId : String
  identityKeys : String
  pickle : Bytes
deriving DecidableEq

/-- The serialised `TrackedUser { user_id, dirty }` record, modelling the
`encode_value(&tracked_user)` payload. -/
def trackedUserBytes (user : String) (dirty : Bool) : Bytes :=
  strBytes user ++ [if dirty then 1 else 0]

/-! ### The statement catalogue: one op builder per write/query call site.

Each builder records exactly the parameters the Rust code binds, in order,
including which are blinded with `encode_key` under which column tag. -/

/-- `insert_kv_txn` as used for the four fixed kv rows (`e2e_account`,
`private_identity`, `backup_version`, `recovery_key`). -/
def insert_kv_op (key : Bytes) (value : Bytes) : DbOp :=
  ⟨"kv_insert", [.blob key, .blob value]⟩

/-- The statement bound by `save_session` (lines 355-371). -/
def session_store_op (cipher : Option StoreCipher) (s : Session) : DbOp :=
  ⟨"session_store",
    [.blob (encode_key cipher "cryptostore_session:sender_key" (strBytes s.senderKey)),
     .blob (encode_value cipher s.pickle)]⟩

/-- The statement bound by `save_message_hash` (lines 377-387): the raw
`sender_key` and `hash` strings, with no call to `encode_key`. -/
def olm_message_hash_store_op (mh : MessageHash) : DbOp :=
  ⟨"olm_message_hash_store", [.str mh.senderKey, .str mh.hash]⟩

/-- The statement bound by `save_inbound_group_session` (lines 394-422). -/
def inbound_group_session_upsert_op (cipher : Option StoreCipher)
    (s : InboundGroupSession) : DbOp :=
  ⟨"inbound_group_session_upsert",
    [.blob (encode_key cipher "cryptostore_inbound_group_session:room_id" (strBytes s.roomId)),
     .blob (encode_key cipher "cryptostore_inbound_group_session:sender_key" (strBytes s.senderKey)),
     .blob (encode_key cipher "cryptostore_inbound_group_session:session_id" (strBytes s.sessionId)),
     .blob (encode_value cipher s.pickle)]⟩

/-- The statement bound by `save_outbound_group_session` (lines 429-445);
note the source blinds the room id under the inbound-group-session tag. -/
def outbound_group_session_store_op (cipher : Option StoreCipher)
    (s : OutboundGroupSession) : DbOp :=
  ⟨"outbound_group_session_store",
    [.blob (encode_key cipher "cryptostore_inbound_group_session:room_id" (strBytes s.roomId)),
     .blob (encode_value cipher s.pickle)]⟩

/-- The statement bound by `save_gossip_request` (lines 452-480). -/
def gossip_request_store_op (cipher : Option StoreCipher) (r : GossipRequest) : DbOp :=
  ⟨"gossip_request_store",
    [.blob (encode_key cipher "cryptostore_gossip_request:recipient_id" (strBytes r.requestRecipient)),
     .blob (encode_key cipher "cryptostore_gossip_request:request_id" (strBytes r.requestId)),
     .blob (encode_key cipher "cryptostore_gossip_request:info_key" (strBytes r.infoKey)),
     .boolean r.sentOut,
     .blob (encode_value cipher r.data)]⟩

/-- The statement bound by `save_crypto_identity` (lines 487-503). -/
def identity_upsert_op (cipher : Option StoreCipher) (i : UserIdentity) : DbOp :=
  ⟨"identity_upsert",
    [.blob (encode_key cipher "cryptostore_identity:user_id" (strBytes i.userId)),
     .blob (encode_value cipher i.data)]⟩

/-- The statement bound by `save_device` (lines 510-529). -/
def device_upsert_op (cipher : Option StoreCipher) (d : Device) : DbOp :=
  ⟨"device_upsert",
    [.blob (encode_key cipher "cryptostore_device:user_id" (strBytes d.userId)),
     .blob (encode_key cipher "cryptostore_device:device_id" (strBytes d.deviceId)),
     .blob (encode_value cipher d.info)]⟩

/-- The statement bound by `delete_device` (lines 536-556). -/
def device_delete_op (cipher : Option StoreCipher) (d : Device) : DbOp :=
  ⟨"device_delete",
    [.blob (encode_key cipher "cryptostore_device:user_id" (strBytes d.userId)),
     .blob (encode_key cipher "cryptostore_device:device_id" (strBytes d.deviceId))]⟩

/-- The statement bound by `save_tracked_user` (lines 896-909). -/
def tracked_user_upsert_op (cipher : Option StoreCipher) (user : String) (dirty : Bool) : DbOp :=
  ⟨"tracked_user_upsert",
    [.blob (encode_key cipher "cryptostore_tracked_user:user_id" (strBytes user)),
     .blob (encode_value cipher (trackedUserBytes user dirty))]⟩

/-- The query bound by the cache-miss path of `get_sessions` (line 651). -/
def sessions_for_user_query_op (cipher : Option StoreCipher) (senderKey : String) : DbOp :=
  ⟨"sessions_for_user",
    [.blob (encode_key cipher "cryptostore_session:sender_key" (strBytes senderKey))]⟩

/-- The query bound by `get_inbound_group_session` (lines 688-704). -/
def inbound_group_session_fetch_op (cipher : Option StoreCipher)
    (roomId senderKey sessionId : String) : DbOp :=
  ⟨"inbound_group_session_fetch",
    [.blob (encode_key cipher "cryptostore_inbound_group_session:room_id" (strBytes roomId)),
     .blob (encode_key cipher "cryptostore_inbound_group_session:sender_key" (strBytes senderKey)),
     .blob (encode_key cipher "cryptostore_inbound_group_session:session_id" (strBytes sessionId))]⟩

/-- The query bound by `get_outbound_group_sessions` (lines 869-876). -/
def outbound_group_session_load_op (cipher : Option StoreCipher) (roomId : String) : DbOp :=
  ⟨"outbound_group_session_load",
    [.blob (encode_key cipher "cryptostore_inbound_group_session:room_id" (strBytes roomId))]⟩

/-- The query bound by `get_device` (lines 942-948). -/
def device_fetch_op (cipher : Option StoreCipher) (userId deviceId : String) : DbOp :=
  ⟨"device_fetch",
    [.blob (encode_key cipher "cryptostore_device:user_id" (strBytes userId)),
     .blob (encode_key cipher "cryptostore_device:device_id" (strBytes deviceId))]⟩

/-- The query bound by `get_user_devices` (lines 968-971). -/
def devices_for_user_op (cipher : Option StoreCipher) (userId : String) : DbOp :=
  ⟨"devices_for_user",
    [.blob (encode_key cipher "cryptostore_device:user_id" (strBytes userId))]⟩

/-- The query bound by `get_user_identity` (lines 992-996). -/
def identity_fetch_op (cipher : Option StoreCipher) (userId : String) : DbOp :=
  ⟨"identity_fetch",
    [.blob (encode_key cipher "cryptostore_identity:user_id" (strBytes userId))]⟩

/-- The query bound by `is_message_known` (lines 1010-1017): raw strings, no
blinding and no unlock check. -/
def message_known_op (mh : MessageHash) : DbOp :=
  ⟨"message_known", [.str mh.senderKey, .str mh.hash]⟩

/-- The query bound by `get_outgoing_key_request` (lines 1028-1033). -/
def gossip_request_fetch_op (cipher : Option StoreCipher) (requestId : String) : DbOp :=
  ⟨"gossip_request_fetch",
    [.blob (encode_key cipher "cryptostore_gossip_request:request_id" (strBytes requestId))]⟩

/-- The query bound by `get_secret_request_by_info` (lines 1052-1061). -/
def gossip_request_info_fetch_op (cipher : Option StoreCipher) (infoKey : String) : DbOp :=
  ⟨"gossip_request_info_fetch",
    [.blob (encode_key cipher "cryptostore_gossip_request:info_key" (strBytes infoKey))]⟩

/-- The statement bound by `delete_outgoing_secret_requests` (lines 1099-1107). -/
def gossip_request_delete_op (cipher : Option StoreCipher) (requestId : String) : DbOp :=
  ⟨"gossip_request_delete",
    [.blob (encode_key cipher "cryptostore_gossip_request:request_id" (strBytes requestId))]⟩

/-- A lookup-key parameter blinded under the given column tag, as every key
binding with an installed cipher would appear. -/
def blindedBlob (c : StoreCipher) (tag : String) (raw : String) : DbParam :=
  .blob (encode_key (some c) tag (strBytes raw))

/-! ### Store state: error taxonomy, caches, the E2E slot. -/

/-- The error taxonomy of the store (`SQLStoreError` plus the wrapped
envelope/serialisation failures, collapsed to `Envelope`). -/
inductive SQLStoreError where
  | Locked
  | MissingAccountInfo
  | Backend
  | Envelope
  | Sign
deriving DecidableEq

/-- The in-memory `AccountInfo` triple extracted from the account. -/
structure AccountInfo where
  userId : String
  deviceId : String
  identityKeys : String
deriving DecidableEq

/-- The in-memory caches of `CryptostoreData`: the account-info slot, the
session / group-session / device stores, and the two tracked-user sets
(sets are modelled as duplicate-free lists). -/
structure Caches where
  account : Option AccountInfo
  sessions : List Session
  groupSessions : List InboundGroupSession
  devices : List Device
  trackedUsers : List String
  usersForKeyQuery : List String
deriving DecidableEq

/-- The caches as freshly created at unlock: everything empty. -/
def emptyCaches : Caches := ⟨none, [], [], [], [], []⟩

/-- `CryptostoreData`: the optional cipher plus the caches. -/
structure CryptostoreData where
  cipher : Option StoreCipher
  caches : Caches

/-- The store: the once-cell E2E slot (absent until unlock) and the
database, modelled as the append-only log of committed statements. -/
structure StateStore where
  e2e : Option CryptostoreData
  db : List DbOp

/-- `ensure_e2e`: yields the installed `CryptostoreData` or fails with
`Locked` when the store has not been unlocked. -/
def ensure_e2e (store : StateStore) : Except SQLStoreError CryptostoreData :=
  match store.e2e with
  | none => .error .Locked
  | some e2e => .ok e2e

/-- `DashSet::insert`-style insertion on a list-modelled set. -/
def insertSet (s : List String) (u : String) : List String :=
  if u ∈ s then s else s ++ [u]

/-- `DashSet::remove`-style removal on a list-modelled set. -/
def removeSet (s : List String) (u : String) : List String :=
  s.filter (fun x => x ≠ u)

/-- `SessionStore::get`: the per-sender-key session list, present exactly
when some session for that key has been added. -/
def sessionsGet (cache : List Session) (senderKey : String) : Option (List Session) :=
  match cache.filter (fun s => s.senderKey = senderKey) with
  | [] => none
  | l => some l

/-- `GroupSessionStore::get` on the (room, sender, session) triple. -/
def groupSessionsGet (cache : List InboundGroupSession)
    (roomId senderKey sessionId : String) : Option InboundGroupSession :=
  cache.find? (fun s =>
    s.roomId = roomId ∧ s.senderKey = senderKey ∧ s.sessionId = sessionId)

/-- `DeviceStore::add`: replaces any existing entry for (user, device). -/
def deviceAdd (cache : List Device) (d : Device) : List Device :=
  cache.filter (fun x => ¬(x.userId = d.userId ∧ x.deviceId = d.deviceId)) ++ [d]

/-- `DeviceStore::remove` by (user, device). -/
def deviceRemove (cache : List Device) (userId deviceId : String) : List Device :=
  cache.filter (fun x => ¬(x.userId = userId ∧ x.deviceId = deviceId))

/-! ### The cache-only façade accessors (lines 1212-1231). -/

/-- `is_user_tracked`: `ensure_e2e().map(..contains..).unwrap_or(false)`. -/
def is_user_tracked (store : StateStore) (user : String) : Bool :=
  match ensure_e2e store with
  | .error _ => false
  | .ok e2e => user ∈ e2e.caches.trackedUsers

/-- `has_users_for_key_query`: emptiness of the key-query set, `false` when
locked. -/
def has_users_for_key_query (store : StateStore) : Bool :=
  match ensure_e2e store with
  | .error _ => false
  | .ok e2e => !e2e.caches.usersForKeyQuery.isEmpty

/-- `users_for_key_query`: a snapshot of the key-query set, empty when
locked. -/
def users_for_key_query (store : StateStore) : List String :=
  match ensure_e2e store with
  | .error _ => []
  | .ok e2e => e2e.caches.usersForKeyQuery

/-- `tracked_users`: a snapshot of the tracked-user set, empty when locked. -/
def tracked_users (store : StateStore) : List String :=
  match ensure_e2e store with
  | .error _ => []
  | .ok e2e => e2e.caches.trackedUsers

/-! ### Tracked users: persist, update, bootstrap load (lines 196-213 and
896-929). -/

/-- `save_tracked_user`: blinds the user id, encodes the record, and
executes the upsert directly against the pool. -/
def save_tracked_user (store : StateStore) (user : String) (dirty : Bool) :
    Except SQLStoreError StateStore :=
  match ensure_e2e store with
  | .error e => .error e
  | .ok e2e =>
      .ok { store with db := store.db ++ [tracked_user_upsert_op e2e.cipher user dirty] }

/-- Replace the caches held in the store's E2E slot. -/
def setCaches (store : StateStore) (e2e : CryptostoreData) (c : Caches) : StateStore :=
  { store with e2e := some { e2e with caches := c } }

/-- `update_tracked_user` (lines 916-929): inserts into the tracked set
(recording whether the user was new), inserts into or removes from the
key-query set according to `dirty`, then persists the record. -/
def update_tracked_user (store : StateStore) (user : String) (dirty : Bool) :
    Except SQLStoreError (Bool × StateStore) :=
  match ensure_e2e store with
  | .error e => .error e
  | .ok e2e =>
      let newlyAdded := user ∉ e2e.caches.trackedUsers
      let tracked := insertSet e2e.caches.trackedUsers user
      let keyQuery :=
        if dirty then insertSet e2e.caches.usersForKeyQuery user
        else removeSet e2e.caches.usersForKeyQuery user
      let store1 := setCaches store e2e
        { e2e.caches with trackedUsers := tracked, usersForKeyQuery := keyQuery }
      match save_tracked_user store1 user dirty with
      | .error e => .error e
      | .ok store2 => .ok (decide newlyAdded, store2)

/-- The decoded `TrackedUser` row. -/
structure TrackedUser where
  user_id : String
  dirty : Bool
deriving DecidableEq

/-- The row loop of `load_tracked_users`: each decoded row inserts the user
into the tracked set and, when dirty, into the key-query set; a decode
failure aborts the loop, keeping the insertions already made. -/
def load_tracked_users_go (dec : Bytes → Except SQLStoreError TrackedUser) :
    List Bytes → Caches → Option SQLStoreError × Caches
  | [], c => (none, c)
  | row :: rows, c =>
      match dec row with
      | .error e => (some e, c)
      | .ok tu =>
          load_tracked_users_go dec rows
            { c with
              trackedUsers := insertSet c.trackedUsers tu.user_id,
              usersForKeyQuery :=
                if tu.dirty then insertSet c.usersForKeyQuery tu.user_id
                else c.usersForKeyQuery }

/-- `load_tracked_users` (lines 201-213): requires unlock, then runs the row
loop over the fetched `tracked_user_data` rows. -/
def load_tracked_users (store : StateStore) (rows : List Bytes)
    (dec : Bytes → Except SQLStoreError TrackedUser) :
    Option SQLStoreError × StateStore :=
  match ensure_e2e store with
  | .error e => (some e, store)
  | .ok e2e =>
      match load_tracked_users_go dec rows e2e.caches with
      | (err, c) => (err, setCaches store e2e c)

/-! ### Load and query operations.

The SQL engine and the crypto primitives are external collaborators: the
fetched row(s) and the decoder (the `decode_value` / `from_pickle` chain,
collapsed into one fallible function) are passed as arguments. -/

/-- The `row.map(decode).transpose()?` shape shared by the optional-row
loads: absent row gives `none`, a decode failure propagates. -/
def transposeDec (dec : Bytes → Except SQLStoreError α) :
    Option Bytes → Except SQLStoreError (Option α)
  | none => .ok none
  | some b =>
      match dec b with
      | .error e => .error e
      | .ok v => .ok (some v)

/-- The `while let Some(row) = rows.try_next()` decode loop: the first
failure aborts the whole fetch. -/
def decodeRows (dec : Bytes → Except SQLStoreError α) :
    List Bytes → Except SQLStoreError (List α)
  | [] => .ok []
  | r :: rs =>
      match dec r with
      | .error e => .error e
      | .ok v =>
          match decodeRows dec rs with
          | .error e => .error e
          | .ok vs => .ok (v :: vs)

/-- `load_account` (lines 220-239): on a present row the decoded account
also installs `AccountInfo`; an absent row yields `none`. -/
def load_account (store : StateStore) (row : Option Bytes)
    (dec : Bytes → Except SQLStoreError Account) :
    Except SQLStoreError (Option Account × StateStore) :=
  match ensure_e2e store with
  | .error e => .error e
  | .ok e2e =>
      match row with
      | some data =>
          match dec data with
          | .error e => .error e
          | .ok account =>
              let info : AccountInfo :=
                ⟨account.userId, account.deviceId, account.identityKeys⟩
              .ok (some account,
                   setCaches store e2e { e2e.caches with account := some info })
      | none => .ok (none, store)

/-- `load_identity` (lines 285-298): the identity pickle is opaque; the
decoder covers `decode_value` and the `Sign`-mapped `from_pickle`. -/
def load_identity (store : StateStore) (row : Option Bytes)
    (dec : Bytes → Except SQLStoreError Bytes) :
    Except SQLStoreError (Option Bytes) :=
  match ensure_e2e store with
  | .error e => .error e
  | .ok _ => transposeDec dec row

/-- The two optional fields loaded by `load_backup_keys`. -/
structure BackupKeys where
  recovery_key : Option Bytes
  backup_version : Option String
deriving DecidableEq

/-- `load_backup_keys` (lines 837-853): each kv row is independently
decoded via the transpose shape; either failure propagates. -/
def load_backup_keys (store : StateStore) (rowVersion rowRecovery : Option Bytes)
    (decVersion : Bytes → Except SQLStoreError String)
    (decRecovery : Bytes → Except SQLStoreError Bytes) :
    Except SQLStoreError BackupKeys :=
  match ensure_e2e store with
  | .error e => .error e
  | .ok _ =>
      match transposeDec decVersion rowVersion with
      | .error e => .error e
      | .ok backupVersion =>
          match transposeDec decRecovery rowRecovery with
          | .error e => .error e
          | .ok recoveryKey =>
              .ok { recovery_key := recoveryKey, backup_version := backupVersion }

/-- A pickled Olm session as decoded from a `session_data` column. -/
structure PickledSession where
  senderKey : String
  data : Bytes
deriving DecidableEq

/-- `Session::from_pickle`: reconstitutes a session; the account-info
context (user id, device id, identity keys) is consumed by the external
ratchet and does not surface in the stored fields. -/
def sessionFromPickle (_info : AccountInfo) (p : PickledSession) : Session :=
  ⟨p.senderKey, p.data⟩

/-- The decode-and-reconstitute loop of the `get_sessions` cache-miss path. -/
def decodeSessions (info : AccountInfo)
    (dec : Bytes → Except SQLStoreError PickledSession) :
    List Bytes → Except SQLStoreError (List Session)
  | [] => .ok []
  | row :: rows =>
      match dec row with
      | .error e => .error e
      | .ok p =>
          match decodeSessions info dec rows with
          | .error e => .error e
          | .ok rest => .ok (sessionFromPickle info p :: rest)

/-- `get_sessions` (lines 637-670): a cache hit returns the shared list; on
a miss the `AccountInfo` slot is required before the database is consulted,
each fetched row is reconstituted and added to the cache, and the final
answer is the cache lookup after insertion. -/
def get_sessions (store : StateStore) (senderKey : String) (rows : List Bytes)
    (dec : Bytes → Except SQLStoreError PickledSession) :
    Except SQLStoreError (Option (List Session) × StateStore) :=
  match ensure_e2e store with
  | .error e => .error e
  | .ok e2e =>
      match sessionsGet e2e.caches.sessions senderKey with
      | some v => .ok (some v, store)
      | none =>
          match e2e.caches.account with
          | none => .error .MissingAccountInfo
          | some info =>
              match decodeSessions info dec rows with
              | .error e => .error e
              | .ok newSessions =>
                  let cache := e2e.caches.sessions ++ newSessions
                  .ok (sessionsGet cache senderKey,
                       setCaches store e2e { e2e.caches with sessions := cache })

/-- `get_inbound_group_session` (lines 677-716): cache hit, else fetch the
(room, sender, session) row, decode, insert into the cache. -/
def get_inbound_group_session (store : StateStore)
    (roomId senderKey sessionId : String) (row : Option Bytes)
    (dec : Bytes → Except SQLStoreError InboundGroupSession) :
    Except SQLStoreError (Option InboundGroupSession × StateStore) :=
  match ensure_e2e store with
  | .error e => .error e
  | .ok e2e =>
      match groupSessionsGet e2e.caches.groupSessions roomId senderKey sessionId with
      | some v => .ok (some v, store)
      | none =>
          match row with
          | some data =>
              match dec data with
              | .error e => .error e
              | .ok s =>
                  .ok (some s,
                       setCaches store e2e
                         { e2e.caches with
                           groupSessions := e2e.caches.groupSessions ++ [s] })
          | none => .ok (none, store)

/-- `get_outbound_group_sessions` (lines 860-889): requires `AccountInfo`
for reconstitution before consulting the row. -/
def get_outbound_group_sessions (store : StateStore) (row : Option Bytes)
    (dec : Bytes → Except SQLStoreError OutboundGroupSession) :
    Except SQLStoreError (Option OutboundGroupSession) :=
  match ensure_e2e store with
  | .error e => .error e
  | .ok e2e =>
      match e2e.caches.account with
      | none => .error .MissingAccountInfo
      | some _ => transposeDec dec row

/-- `get_device` (lines 936-956). -/
def get_device (store : StateStore) (row : Option Bytes)
    (dec : Bytes → Except SQLStoreError Device) :
    Except SQLStoreError (Option Device) :=
  match ensure_e2e store with
  | .error e => .error e
  | .ok _ => transposeDec dec row

/-- `get_user_devices` (lines 963-980): decodes every row for the user,
keyed by device id. -/
def get_user_devices (store : StateStore) (rows : List Bytes)
    (dec : Bytes → Except SQLStoreError Device) :
    Except SQLStoreError (List (String × Device)) :=
  match ensure_e2e store with
  | .error e => .error e
  | .ok _ =>
      match decodeRows dec rows with
      | .error e => .error e
      | .ok ds => .ok (ds.map (fun d => (d.deviceId, d)))

/-- `get_user_identity` (lines 987-1004). -/
def get_user_identity (store : StateStore) (row : Option Bytes)
    (dec : Bytes → Except SQLStoreError UserIdentity) :
    Except SQLStoreError (Option UserIdentity) :=
  match ensure_e2e store with
  | .error e => .error e
  | .ok _ => transposeDec dec row

/-- `is_message_known` (lines 1010-1017): no unlock check; the row for the
raw (sender key, hash) pair exists exactly when the matching store
statement was committed. -/
def is_message_known (store : StateStore) (mh : MessageHash) :
    Except SQLStoreError Bool :=
  .ok (store.db.any (fun op => decide (op = olm_message_hash_store_op mh)))

/-- `get_outgoing_key_request` (lines 1024-1041). -/
def get_outgoing_key_request (store : StateStore) (row : Option Bytes)
    (dec : Bytes → Except SQLStoreError GossipRequest) :
    Except SQLStoreError (Option GossipRequest) :=
  match ensure_e2e store with
  | .error e => .error e
  | .ok _ => transposeDec dec row

/-- `get_secret_request_by_info` (lines 1048-1069). -/
def get_secret_request_by_info (store : StateStore) (row : Option Bytes)
    (dec : Bytes → Except SQLStoreError GossipRequest) :
    Except SQLStoreError (Option GossipRequest) :=
  match ensure_e2e store with
  | .error e => .error e
  | .ok _ => transposeDec dec row

/-- `get_unsent_secret_requests` (lines 1076-1088). -/
def get_unsent_secret_requests (store : StateStore) (rows : List Bytes)
    (dec : Bytes → Except SQLStoreError GossipRequest) :
    Except SQLStoreError (List GossipRequest) :=
  match ensure_e2e store with
  | .error e => .error e
  | .ok _ => decodeRows dec rows

/-- `delete_outgoing_secret_requests` (lines 1095-1109). -/
def delete_outgoing_secret_requests (store : StateStore) (requestId : String) :
    Except SQLStoreError StateStore :=
  match ensure_e2e store with
  | .error e => .error e
  | .ok e2e =>
      .ok { store with db := store.db ++ [gossip_request_delete_op e2e.cipher requestId] }

/-! ### The inbound-group-session stream consumers (lines 722-830). -/

/-- The `RoomKeyCounts` accumulator. -/
structure RoomKeyCounts where
  total : Nat
  backed_up : Nat
deriving DecidableEq

/-- The `try_fold` of `inbound_group_session_counts`: one pass over the
stream, incrementing `total` always and `backed_up` when flagged. -/
def countsGo (dec : Bytes → Except SQLStoreError InboundGroupSession) :
    List Bytes → RoomKeyCounts → Except SQLStoreError RoomKeyCounts
  | [], c => .ok c
  | r :: rs, c =>
      match dec r with
      | .error e => .error e
      | .ok s =>
          countsGo dec rs
            { total := c.total + 1,
              backed_up := if s.backed_up then c.backed_up + 1 else c.backed_up }

/-- `inbound_group_session_counts` (lines 785-795): the stream constructor
itself requires unlock. -/
def inbound_group_session_counts (store : StateStore) (rows : List Bytes)
    (dec : Bytes → Except SQLStoreError InboundGroupSession) :
    Except SQLStoreError RoomKeyCounts :=
  match ensure_e2e store with
  | .error e => .error e
  | .ok _ => countsGo dec rows ⟨0, 0⟩

/-- The `try_filter(not backed_up).take(limit)` pipeline: lazy, so once the
limit is reached no further row is consumed. -/
def forBackupGo (dec : Bytes → Except SQLStoreError InboundGroupSession)
    (limit : Nat) : List Bytes → Except SQLStoreError (List InboundGroupSession)
  | [] => .ok []
  | r :: rs =>
      if limit = 0 then .ok []
      else
        match dec r with
        | .error e => .error e
        | .ok s =>
            if s.backed_up then forBackupGo dec limit rs
            else
              match forBackupGo dec (limit - 1) rs with
              | .error e => .error e
              | .ok out => .ok (s :: out)

/-- `inbound_group_sessions_for_backup` (lines 802-811). -/
def inbound_group_sessions_for_backup (store : StateStore) (limit : Nat)
    (rows : List Bytes) (dec : Bytes → Except SQLStoreError InboundGroupSession) :
    Except SQLStoreError (List InboundGroupSession) :=
  match ensure_e2e store with
  | .error e => .error e
  | .ok _ => forBackupGo dec limit rows

/-- `get_inbound_group_sessions` (lines 770-778): collect the whole stream. -/
def get_inbound_group_sessions (store : StateStore) (rows : List Bytes)
    (dec : Bytes → Except SQLStoreError InboundGroupSession) :
    Except SQLStoreError (List InboundGroupSession) :=
  match ensure_e2e store with
  | .error e => .error e
  | .ok _ => decodeRows dec rows

/-! ### The change-set transaction protocol (lines 246-630).

A transaction accumulates the statements executed so far.  Backend faults
are injected through a budget: the n-th statement execution (commit
included) fails once the budget is exhausted, standing for a connection or
constraint failure at that point. -/

/-- An open transaction: the statements executed so far and how many
executions have happened. -/
structure TxnCtx where
  ops : List DbOp
  execCount : Nat
deriving DecidableEq

/-- Execute one statement inside a transaction: succeeds while the failure
budget allows, otherwise reports a backend error. -/
def execStmt (budget : Nat) (op : DbOp) (t : TxnCtx) : Except SQLStoreError TxnCtx :=
  if t.execCount < budget then
    .ok { ops := t.ops ++ [op], execCount := t.execCount + 1 }
  else .error .Backend

/-- The mutable state a transactional call sees: the open transaction plus
the store's E2E slot (whose caches the call mutates in place). -/
structure TS where
  txn : TxnCtx
  e2e : Option CryptostoreData

/-- One step of a change-set.  An `e2eStep` is the shape shared by every
repository save: `ensure_e2e`, a cache mutation made before the statement
(`pre`, used by the account save for `AccountInfo`), the statement itself
(built from the cipher), and a cache mutation made after it (`post`, used
by the session / group-session / device saves).  A `rawStep` executes a
statement with no unlock check and no cache effect (`save_message_hash`). -/
inductive TxnStep where
  | e2eStep (pre : Caches → Caches) (mkOp : Option StoreCipher → DbOp)
      (post : Caches → Caches)
  | rawStep (op : DbOp)

/-- Run one step.  Cache mutations made before a failing statement are kept,
as the Rust code mutates the shared caches in place. -/
def runStep (budget : Nat) (step : TxnStep) (s : TS) :
    Option SQLStoreError × TS :=
  match step with
  | .rawStep op =>
      match execStmt budget op s.txn with
      | .error e => (some e, s)
      | .ok t => (none, { s with txn := t })
  | .e2eStep pre mkOp post =>
      match s.e2e with
      | none => (some .Locked, s)
      | some e2e =>
          let e1 : CryptostoreData := { e2e with caches := pre e2e.caches }
          match execStmt budget (mkOp e2e.cipher) s.txn with
          | .error e => (some e, { s with e2e := some e1 })
          | .ok t =>
              (none, { txn := t, e2e := some { e1 with caches := post e1.caches } })

/-- Run a list of steps, stopping at the first failure (the `?` operator). -/
def runSteps (budget : Nat) : List TxnStep → TS → Option SQLStoreError × TS
  | [], s => (none, s)
  | step :: rest, s =>
      match runStep budget step s with
      | (some e, s1) => (some e, s1)
      | (none, s1) => runSteps budget rest s1

/-- `save_account_txn` (lines 259-278): installs `AccountInfo` before the
kv write. -/
def accountStep (a : Account) : TxnStep :=
  .e2eStep
    (fun c => { c with account := some ⟨a.userId, a.deviceId, a.identityKeys⟩ })
    (fun cipher => insert_kv_op (strBytes "e2e_account") (encode_value cipher a.pickle))
    id

/-- `store_identity` (lines 305-318). -/
def identityStep (pickle : Bytes) : TxnStep :=
  .e2eStep id
    (fun cipher => insert_kv_op (strBytes "private_identity") (encode_value cipher pickle))
    id

/-- `store_backup_version` (lines 325-333). -/
def backupVersionStep (version : String) : TxnStep :=
  .e2eStep id
    (fun cipher => insert_kv_op (strBytes "backup_version") (encode_value cipher (strBytes version)))
    id

/-- `store_recovery_key` (lines 340-348). -/
def recoveryKeyStep (key : Bytes) : TxnStep :=
  .e2eStep id
    (fun cipher => insert_kv_op (strBytes "recovery_key") (encode_value cipher key))
    id

/-- `save_session` (lines 355-371): statement first, then the cache add. -/
def sessionStep (s : Session) : TxnStep :=
  .e2eStep id (fun cipher => session_store_op cipher s)
    (fun c => { c with sessions := c.sessions ++ [s] })

/-- `save_message_hash` (lines 377-387): no unlock check, no cache. -/
def messageHashStep (mh : MessageHash) : TxnStep :=
  .rawStep (olm_message_hash_store_op mh)

/-- `save_inbound_group_session` (lines 394-422). -/
def inboundStep (s : InboundGroupSession) : TxnStep :=
  .e2eStep id (fun cipher => inbound_group_session_upsert_op cipher s)
    (fun c => { c with groupSessions := c.groupSessions ++ [s] })

/-- `save_outbound_group_session` (lines 429-445): no cache effect. -/
def outboundStep (s : OutboundGroupSession) : TxnStep :=
  .e2eStep id (fun cipher => outbound_group_session_store_op cipher s) id

/-- `save_gossip_request` (lines 452-480). -/
def gossipStep (r : GossipRequest) : TxnStep :=
  .e2eStep id (fun cipher => gossip_request_store_op cipher r) id

/-- `save_crypto_identity` (lines 487-503). -/
def cryptoIdentityStep (i : UserIdentity) : TxnStep :=
  .e2eStep id (fun cipher => identity_upsert_op cipher i) id

/-- `save_device` (lines 510-529). -/
def deviceStep (d : Device) : TxnStep :=
  .e2eStep id (fun cipher => device_upsert_op cipher d)
    (fun c => { c with devices := deviceAdd c.devices d })

/-- `delete_device` (lines 536-556). -/
def deviceDeleteStep (d : Device) : TxnStep :=
  .e2eStep id (fun cipher => device_delete_op cipher d)
    (fun c => { c with devices := deviceRemove c.devices d.userId d.deviceId })

/-- `save_session` as a standalone transactional call. -/
def save_session (budget : Nat) (s : Session) (ts : TS) : Option SQLStoreError × TS :=
  runStep budget (sessionStep s) ts

/-- `save_message_hash` as a standalone transactional call. -/
def save_message_hash (budget : Nat) (mh : MessageHash) (ts : TS) :
    Option SQLStoreError × TS :=
  runStep budget (messageHashStep mh) ts

/-- `save_inbound_group_session` as a standalone transactional call. -/
def save_inbound_group_session (budget : Nat) (s : InboundGroupSession) (ts : TS) :
    Option SQLStoreError × TS :=
  runStep budget (inboundStep s) ts

/-- `save_device` as a standalone transactional call. -/
def save_device (budget : Nat) (d : Device) (ts : TS) : Option SQLStoreError × TS :=
  runStep budget (deviceStep d) ts

/-- `delete_device` as a standalone transactional call. -/
def delete_device (budget : Nat) (d : Device) (ts : TS) : Option SQLStoreError × TS :=
  runStep budget (deviceDeleteStep d) ts

/-- The device-change sub-aggregate of `Changes`. -/
structure DeviceChanges where
  new : List Device
  changed : List Device
  deleted : List Device
deriving DecidableEq

/-- The identity-change sub-aggregate of `Changes`. -/
structure IdentityChanges where
  new : List UserIdentity
  changed : List UserIdentity
deriving DecidableEq

/-- The heterogeneous `Changes` aggregate. -/
structure Changes where
  account : Option Account
  private_identity : Option Bytes
  backup_version : Option String
  recovery_key : Option Bytes
  sessions : List Session
  message_hashes : List MessageHash
  inbound_group_sessions : List InboundGroupSession
  outbound_group_sessions : List OutboundGroupSession
  key_requests : List GossipRequest
  identities : IdentityChanges
  devices : DeviceChanges
deriving DecidableEq

/-- The step for an optional singleton field of `Changes`. -/
def optSteps (f : α → TxnStep) : Option α → List TxnStep
  | none => []
  | some a => [f a]

/-- The step sequence of `save_changes_txn` (lines 563-618), in source
order: account, private identity, backup version, recovery key, sessions,
message hashes, inbound group sessions, outbound group sessions, key
requests, identities (changed then new), devices (changed then new),
device deletions. -/
def stepsOfChanges (ch : Changes) : List TxnStep :=
  optSteps accountStep ch.account ++
  optSteps identityStep ch.private_identity ++
  optSteps backupVersionStep ch.backup_version ++
  optSteps recoveryKeyStep ch.recovery_key ++
  ch.sessions.map sessionStep ++
  ch.message_hashes.map messageHashStep ++
  ch.inbound_group_sessions.map inboundStep ++
  ch.outbound_group_sessions.map outboundStep ++
  ch.key_requests.map gossipStep ++
  (ch.identities.changed ++ ch.identities.new).map cryptoIdentityStep ++
  (ch.devices.changed ++ ch.devices.new).map deviceStep ++
  ch.devices.deleted.map deviceDeleteStep

/-- `save_changes_txn`: the ordered traversal of the change-set inside an
open transaction. -/
def save_changes_txn (budget : Nat) (ch : Changes) (ts : TS) :
    Option SQLStoreError × TS :=
  runSteps budget (stepsOfChanges ch) ts

/-- `save_changes` (lines 625-630): begin a transaction, apply the
change-set, commit.  Commit consumes an execution slot (it can fail); only
a successful commit appends the transaction's statements to the database,
while cache mutations made by the steps remain in either case. -/
def save_changes (budget : Nat) (ch : Changes) (store : StateStore) :
    Option SQLStoreError × StateStore :=
  match save_changes_txn budget ch { txn := ⟨[], 0⟩, e2e := store.e2e } with
  | (some e, s) => (some e, { store with e2e := s.e2e })
  | (none, s) =>
      if s.txn.execCount < budget then
        (none, { e2e := s.e2e, db := store.db ++ s.txn.ops })
      else (some .Backend, { store with e2e := s.e2e })

/-- The statement a step executes, given the store's cipher. -/
def stepOpAt (cipher : Option StoreCipher) : TxnStep → DbOp
  | .e2eStep _ mkOp _ => mkOp cipher
  | .rawStep op => op

/-- The ordered statement list of a change-set, spelled out field by field:
the at-rest trace the specification's fixed order prescribes. -/
def changesOps (cipher : Option StoreCipher) (ch : Changes) : List DbOp :=
  (ch.account.toList.map (fun a =>
    insert_kv_op (strBytes "e2e_account") (encode_value cipher a.pickle))) ++
  (ch.private_identity.toList.map (fun p =>
    insert_kv_op (strBytes "private_identity") (encode_value cipher p))) ++
  (ch.backup_version.toList.map (fun v =>
    insert_kv_op (strBytes "backup_version") (encode_value cipher (strBytes v)))) ++
  (ch.recovery_key.toList.map (fun k =>
    insert_kv_op (strBytes "recovery_key") (encode_value cipher k))) ++
  ch.sessions.map (session_store_op cipher) ++
  ch.message_hashes.map olm_message_hash_store_op ++
  ch.inbound_group_sessions.map (inbound_group_session_upsert_op cipher) ++
  ch.outbound_group_sessions.map (outbound_group_session_store_op cipher) ++
  ch.key_requests.map (gossip_request_store_op cipher) ++
  (ch.identities.changed ++ ch.identities.new).map (identity_upsert_op cipher) ++
  (ch.devices.changed ++ ch.devices.new).map (device_upsert_op cipher) ++
  ch.devices.deleted.map (device_delete_op cipher)

/-! ### Shared concrete fixtures and set lemmas. -/

/-- A store that has not been unlocked: the E2E slot is absent. -/
def lockedStore : StateStore := ⟨none, []⟩

/-- A store unlocked on the unencrypted path, with fresh caches. -/
def unlockedStore : StateStore := ⟨some ⟨none, emptyCaches⟩, []⟩

/-- The all-empty change-set. -/
def emptyChanges : Changes :=
  ⟨none, none, none, none, [], [], [], [], [], ⟨[], []⟩, ⟨[], [], []⟩⟩

theorem mem_insertSet (s : List String) (u v : String) :
    v ∈ insertSet s u ↔ v ∈ s ∨ v = u := by
  unfold insertSet
  by_cases h : u ∈ s
  · simp only [if_pos h]
    constructor
    · exact Or.inl
    · rintro (hv | rfl)
      · exact hv
      · exact h
  · simp [if_neg h]

theorem mem_removeSet (s : List String) (u v : String) :
    v ∈ removeSet s u ↔ v ∈ s ∧ v ≠ u := by
  simp [removeSet]

/-! ### C10: the cache-only façade degrades to defaults when locked. -/

/-- C10: when the store has not been unlocked, `is_user_tracked` is false
for every user, `has_users_for_key_query` is false, and the two snapshot
accessors return empty sets, instead of failing. -/
theorem locked_facade_defaults (store : StateStore) (h : store.e2e = none) :
    (∀ u, is_user_tracked store u = false) ∧
    has_users_for_key_query store = false ∧
    users_for_key_query store = [] ∧
    tracked_users store = [] := by
  refine ⟨fun u => ?_, ?_, ?_, ?_⟩ <;>
    simp [is_user_tracked, has_users_for_key_query, users_for_key_query,
      tracked_users, ensure_e2e, h]

/-- Witness for C10 at the concrete locked store. -/
theorem locked_facade_defaults_witness :
    is_user_tracked lockedStore "@u:example.org" = false ∧
    tracked_users lockedStore = [] :=
  ⟨(locked_facade_defaults lockedStore rfl).1 "@u:example.org",
   (locked_facade_defaults lockedStore rfl).2.2.2⟩

/-! ### C5: `update_tracked_user` semantics. -/

/-- C5: `update_tracked_user(u, dirty)` returns true exactly when `u` was
not already tracked; it always leaves `u` tracked, inserts `u` into the
key-query set when dirty and removes it when not, persists the `(u, dirty)`
record, and returns false on every subsequent call for `u`. -/
theorem update_tracked_user_spec (store : StateStore) (e2e : CryptostoreData)
    (user : String) (dirty : Bool) (h : store.e2e = some e2e) :
    ∃ store',
      update_tracked_user store user dirty =
        .ok (decide (user ∉ e2e.caches.trackedUsers), store') ∧
      user ∈ tracked_users store' ∧
      (dirty = true → user ∈ users_for_key_query store') ∧
      (dirty = false → user ∉ users_for_key_query store') ∧
      (∀ v ∈ tracked_users store, v ∈ tracked_users store') ∧
      store'.db = store.db ++ [tracked_user_upsert_op e2e.cipher user dirty] ∧
      (∀ dirty2 p, update_tracked_user store' user dirty2 = .ok p →
        p.1 = false) := by
  unfold update_tracked_user save_tracked_user setCaches ensure_e2e
  simp only [h]
  refine ⟨_, rfl, ?_, ?_, ?_, ?_, rfl, ?_⟩
  · simp [tracked_users, ensure_e2e, mem_insertSet]
  · intro hd
    simp [users_for_key_query, ensure_e2e, hd, mem_insertSet]
  · intro hd
    simp [users_for_key_query, ensure_e2e, hd, mem_removeSet]
  · intro v hv
    simp only [tracked_users, ensure_e2e, h] at hv
    simp [tracked_users, ensure_e2e, mem_insertSet, hv]
  · intro dirty2 p hp
    simp only [Except.ok.injEq] at hp
    have h1 : p.1 = decide (user ∉ insertSet e2e.caches.trackedUsers user) := by
      rw [← hp]
    rw [h1]
    simp [mem_insertSet]

/-- Witness for C5: first call for a fresh user returns true. -/
theorem update_tracked_user_spec_witness :
    ∃ store',
      update_tracked_user unlockedStore "@a:example.org" true =
        .ok (true, store') ∧
      "@a:example.org" ∈ tracked_users store' := by
  obtain ⟨store', heq, htr, hdirty, _, _, _, _⟩ :=
    update_tracked_user_spec unlockedStore ⟨none, emptyCaches⟩
      "@a:example.org" true rfl
  exact ⟨store', heq, htr⟩

/-! ### C7: the key-query set stays inside the tracked set. -/

/-- The containment invariant on the two tracked-user sets. -/
def cacheInv (c : Caches) : Prop :=
  ∀ v, v ∈ c.usersForKeyQuery → v ∈ c.trackedUsers

/-- The containment invariant phrased on the store's snapshots. -/
def storeInv (store : StateStore) : Prop :=
  ∀ v, v ∈ users_for_key_query store → v ∈ tracked_users store

theorem load_go_cacheInv (dec : Bytes → Except SQLStoreError TrackedUser)
    (rows : List Bytes) :
    ∀ c, cacheInv c → cacheInv (load_tracked_users_go dec rows c).2 := by
  induction rows with
  | nil => intro c hc; exact hc
  | cons r rs ih =>
      intro c hc
      unfold load_tracked_users_go
      cases hdec : dec r with
      | error e => exact hc
      | ok tu =>
          apply ih
          intro v hv
          simp only at hv
          rw [mem_insertSet]
          by_cases hd : tu.dirty
      <;> simp only [hd, if_true, if_false, Bool.false_eq_true] at hv
          · rw [mem_insertSet] at hv
            rcases hv with hv | rfl
            · exact Or.inl (hc v hv)
            · exact Or.inr rfl
          · exact Or.inl (hc v hv)

theorem load_storeInv (store : StateStore) (rows : List Bytes)
    (dec : Bytes → Except SQLStoreError TrackedUser) (hinv : storeInv store) :
    storeInv (load_tracked_users store rows dec).2 := by
  unfold load_tracked_users
  cases he : ensure_e2e store with
  | error e => exact hinv
  | ok e2e =>
      have h2 : store.e2e = some e2e := by
        unfold ensure_e2e at he
        cases hs : store.e2e <;> rw [hs] at he <;> simp_all
      intro v hv
      simp only [users_for_key_query, tracked_users, ensure_e2e, setCaches] at hv ⊢
      have hcache : cacheInv e2e.caches := by
        intro w hw
        have := hinv w
        simp only [users_for_key_query, tracked_users, ensure_e2e, h2] at this
        exact this hw
      exact load_go_cacheInv dec rows e2e.caches hcache v hv

theorem update_storeInv (store : StateStore) (user : String) (dirty : Bool)
    (hinv : storeInv store) (p : Bool × StateStore)
    (hp : update_tracked_user store user dirty = .ok p) : storeInv p.2 := by
  unfold update_tracked_user save_tracked_user setCaches ensure_e2e at hp
  cases h2 : store.e2e with
  | none => rw [h2] at hp; exact absurd hp (by simp)
  | some e2e =>
      rw [h2] at hp
      simp only [Except.ok.injEq] at hp
      intro v hv
      rw [← hp] at hv ⊢
      simp only [users_for_key_query, tracked_users, ensure_e2e] at hv ⊢
      rw [mem_insertSet]
      by_cases hd : dirty
  <;> simp only [hd, if_true, if_false, Bool.false_eq_true] at hv
      · rw [mem_insertSet] at hv
        rcases hv with hv | rfl
        · refine Or.inl ?_
          have := hinv v
          simp only [users_for_key_query, tracked_users, ensure_e2e, h2] at this
          exact this hv
        · exact Or.inr rfl
      · rw [mem_removeSet] at hv
        refine Or.inl ?_
        have := hinv v
        simp only [users_for_key_query, tracked_users, ensure_e2e, h2] at this
        exact this hv.1

/-- Any interleaving of `update_tracked_user` calls, as the runtime issues
them. -/
def applyUpdates (store : StateStore) : List (String × Bool) → StateStore
  | [] => store
  | (u, d) :: rest =>
      match update_tracked_user store u d with
      | .error _ => applyUpdates store rest
      | .ok (_, s) => applyUpdates s rest

theorem applyUpdates_storeInv (updates : List (String × Bool)) :
    ∀ store, storeInv store → storeInv (applyUpdates store updates) := by
  induction updates with
  | nil => intro store h; exact h
  | cons ud rest ih =>
      intro store h
      rcases ud with ⟨u, d⟩
      unfold applyUpdates
      cases hu : update_tracked_user store u d with
      | error e => exact ih store h
      | ok p =>
          rcases p with ⟨b, s⟩
          exact ih s (update_storeInv store u d h ⟨b, s⟩ hu)

/-- C7: after bootstrap (`load_tracked_users` on freshly created caches)
followed by any sequence of `update_tracked_user` calls, the key-query set
is contained in the tracked set; and a `dirty = false` update only shrinks
the key-query set while only growing the tracked set. -/
theorem users_for_key_query_subset_tracked :
    (∀ (cipher : Option StoreCipher) (db : List DbOp) (rows : List Bytes)
       (dec : Bytes → Except SQLStoreError TrackedUser)
       (updates : List (String × Bool)) (u : String),
       u ∈ users_for_key_query (applyUpdates
             (load_tracked_users ⟨some ⟨cipher, emptyCaches⟩, db⟩ rows dec).2
             updates) →
       u ∈ tracked_users (applyUpdates
             (load_tracked_users ⟨some ⟨cipher, emptyCaches⟩, db⟩ rows dec).2
             updates)) ∧
    (∀ (store : StateStore) (e2e : CryptostoreData) (user : String)
       (p : Bool × StateStore), store.e2e = some e2e →
       update_tracked_user store user false = .ok p →
       (∀ v, v ∈ users_for_key_query p.2 → v ∈ e2e.caches.usersForKeyQuery) ∧
       (∀ v, v ∈ e2e.caches.trackedUsers → v ∈ tracked_users p.2)) := by
  constructor
  · intro cipher db rows dec updates u
    have hfresh : storeInv (⟨some ⟨cipher, emptyCaches⟩, db⟩ : StateStore) := by
      intro v hv
      simp [users_for_key_query, ensure_e2e, emptyCaches] at hv
    exact applyUpdates_storeInv updates _ (load_storeInv _ rows dec hfresh) u
  · intro store e2e user p h2 hp
    unfold update_tracked_user save_tracked_user setCaches ensure_e2e at hp
    rw [h2] at hp
    simp only [Except.ok.injEq] at hp
    constructor
    · intro v hv
      rw [← hp] at hv
      simp only [users_for_key_query, ensure_e2e, Bool.false_eq_true, if_false] at hv
      exact (mem_removeSet _ _ _ |>.mp hv).1
    · intro v hv
      rw [← hp]
      simp only [tracked_users, ensure_e2e]
      rw [mem_insertSet]
      exact Or.inl hv

/-- Witness for C7: a user marked dirty appears in both sets. -/
theorem users_for_key_query_subset_tracked_witness :
    "@a:example.org" ∈ tracked_users
      (applyUpdates
        (load_tracked_users ⟨some ⟨none, emptyCaches⟩, []⟩ []
          (fun _ => .error .Envelope)).2
        [("@a:example.org", true)]) :=
  users_for_key_query_subset_tracked.1 none [] []
    (fun _ => .error .Envelope) [("@a:example.org", true)] "@a:example.org"
    (by decide)

/-! ### C6: backup accounting. -/

theorem countsGo_spec (dec : Bytes → Except SQLStoreError InboundGroupSession) :
    ∀ (rows : List Bytes) (sessions : List InboundGroupSession)
      (acc : RoomKeyCounts),
      decodeRows dec rows = .ok sessions →
      countsGo dec rows acc =
        .ok ⟨acc.total + sessions.length,
             acc.backed_up + (sessions.filter (fun s => s.backed_up)).length⟩ := by
  intro rows
  induction rows with
  | nil =>
      intro sessions acc h
      unfold decodeRows at h
      simp only [Except.ok.injEq] at h
      subst h
      simp [countsGo]
  | cons r rs ih =>
      intro sessions acc h
      unfold decodeRows at h
      cases hr : dec r with
      | error e => rw [hr] at h; exact absurd h (by simp)
      | ok s =>
          rw [hr] at h
          dsimp only at h
          cases hrs : decodeRows dec rs with
          | error e => rw [hrs] at h; exact absurd h (by simp)
          | ok rest =>
              rw [hrs] at h
              simp only [Except.ok.injEq] at h
              subst h
              simp only [countsGo, hr]
              rw [ih rest _ hrs]
              simp only [Except.ok.injEq, RoomKeyCounts.mk.injEq,
                List.length_cons, List.filter_cons]
              by_cases hb : s.backed_up <;> simp [hb] <;> omega

theorem forBackupGo_spec (dec : Bytes → Except SQLStoreError InboundGroupSession) :
    ∀ (rows : List Bytes) (limit : Nat) (res : List InboundGroupSession),
      forBackupGo dec limit rows = .ok res →
      res.length ≤ limit ∧ ∀ s ∈ res, s.backed_up = false := by
  intro rows
  induction rows with
  | nil =>
      intro limit res h
      unfold forBackupGo at h
      simp only [Except.ok.injEq] at h
      subst h
      simp
  | cons r rs ih =>
      intro limit res h
      unfold forBackupGo at h
      by_cases hl : limit = 0
      · rw [if_pos hl] at h
        simp only [Except.ok.injEq] at h
        subst h
        simp
      · rw [if_neg hl] at h
        cases hr : dec r with
        | error e => rw [hr] at h; exact absurd h (by simp)
        | ok s =>
            rw [hr] at h
            dsimp only at h
            by_cases hb : s.backed_up
            · rw [if_pos hb] at h
              exact ih limit res h
            · rw [if_neg hb] at h
              cases hrec : forBackupGo dec (limit - 1) rs with
              | error e => rw [hrec] at h; exact absurd h (by simp)
              | ok out =>
                  rw [hrec] at h
                  simp only [Except.ok.injEq] at h
                  subst h
                  obtain ⟨hlen, hall⟩ := ih (limit - 1) out hrec
                  constructor
                  · simp only [List.length_cons]
                    omega
                  · intro t ht
                    rcases List.mem_cons.mp ht with rfl | ht
                    · exact Bool.eq_false_iff.mpr hb
                    · exact hall t ht

/-- C6: the stream consumers agree with the stored sessions: `counts` is
the pair (number of sessions, number with the backed-up flag), and
`for_backup(n)` yields at most `n` sessions, none of them backed up. -/
theorem backup_accounting (store : StateStore) (e2e : CryptostoreData)
    (rows : List Bytes) (dec : Bytes → Except SQLStoreError InboundGroupSession)
    (sessions : List InboundGroupSession)
    (h : store.e2e = some e2e) (hdec : decodeRows dec rows = .ok sessions) :
    inbound_group_session_counts store rows dec =
      .ok ⟨sessions.length, (sessions.filter (fun s => s.backed_up)).length⟩ ∧
    ∀ limit res, inbound_group_sessions_for_backup store limit rows dec = .ok res →
      res.length ≤ limit ∧ ∀ s ∈ res, s.backed_up = false := by
  constructor
  · unfold inbound_group_session_counts ensure_e2e
    rw [h]
    simpa using countsGo_spec dec rows sessions ⟨0, 0⟩ hdec
  · intro limit res hres
    unfold inbound_group_sessions_for_backup ensure_e2e at hres
    rw [h] at hres
    exact forBackupGo_spec dec rows limit res hres

/-- A decoder for the witness: the single byte of the row decides the
backed-up flag. -/
def witnessIgsDec (b : Bytes) : Except SQLStoreError InboundGroupSession :=
  .ok ⟨"!room:example.org", "curve25519key", "sessionid", decide (b = [1]), b⟩

/-- Witness for C6 over two concrete rows, one of them backed up. -/
theorem backup_accounting_witness :
    inbound_group_session_counts unlockedStore [[0], [1]] witnessIgsDec =
      .ok ⟨2, 1⟩ ∧
    ∀ res, inbound_group_sessions_for_backup unlockedStore 1 [[0], [1]]
        witnessIgsDec = .ok res →
      res.length ≤ 1 := by
  have h := backup_accounting unlockedStore ⟨none, emptyCaches⟩ [[0], [1]]
    witnessIgsDec
    [⟨"!room:example.org", "curve25519key", "sessionid", false, [0]⟩,
     ⟨"!room:example.org", "curve25519key", "sessionid", true, [1]⟩]
    rfl (by rfl)
  exact ⟨h.1, fun res hres => (h.2 1 res hres).1⟩

/-! ### C8: absence and failure are distinct everywhere. -/

theorem transposeDec_ok_none {α : Type} (dec : Bytes → Except SQLStoreError α)
    (row : Option Bytes) (h : transposeDec dec row = .ok none) : row = none := by
  cases row with
  | none => rfl
  | some b =>
      unfold transposeDec at h
      dsimp only at h
      cases hb : dec b <;> rw [hb] at h <;> simp at h

theorem transposeDec_error {α : Type} (dec : Bytes → Except SQLStoreError α)
    (b : Bytes) (e : SQLStoreError) (h : dec b = .error e) :
    transposeDec dec (some b) = .error e := by
  unfold transposeDec
  dsimp only
  rw [h]

/-- C8: no load downgrades a failure into absence.  For each load, a result
of `none` forces the row to have been absent, and a decoder failure on a
present row surfaces as exactly that error. -/
theorem loads_never_downgrade_errors :
    (∀ (store : StateStore) (row : Option Bytes)
       (dec : Bytes → Except SQLStoreError Account)
       (p : Option Account × StateStore),
       load_account store row dec = .ok p → p.1 = none → row = none) ∧
    (∀ (store : StateStore) (e2e : CryptostoreData) (b : Bytes)
       (dec : Bytes → Except SQLStoreError Account) (e : SQLStoreError),
       store.e2e = some e2e → dec b = .error e →
       load_account store (some b) dec = .error e) ∧
    (∀ (store : StateStore) (row : Option Bytes)
       (dec : Bytes → Except SQLStoreError Bytes) (r : Option Bytes),
       load_identity store row dec = .ok r → r = none → row = none) ∧
    (∀ (store : StateStore) (e2e : CryptostoreData) (b : Bytes)
       (dec : Bytes → Except SQLStoreError Bytes) (e : SQLStoreError),
       store.e2e = some e2e → dec b = .error e →
       load_identity store (some b) dec = .error e) ∧
    (∀ (store : StateStore) (roomId senderKey sessionId : String)
       (row : Option Bytes)
       (dec : Bytes → Except SQLStoreError InboundGroupSession)
       (p : Option InboundGroupSession × StateStore),
       get_inbound_group_session store roomId senderKey sessionId row dec = .ok p →
       p.1 = none → row = none) ∧
    (∀ (store : StateStore) (e2e : CryptostoreData)
       (roomId senderKey sessionId : String) (b : Bytes)
       (dec : Bytes → Except SQLStoreError InboundGroupSession) (e : SQLStoreError),
       store.e2e = some e2e →
       groupSessionsGet e2e.caches.groupSessions roomId senderKey sessionId = none →
       dec b = .error e →
       get_inbound_group_session store roomId senderKey sessionId (some b) dec =
         .error e) ∧
    (∀ (store : StateStore) (row : Option Bytes)
       (dec : Bytes → Except SQLStoreError Device) (r : Option Device),
       get_device store row dec = .ok r → r = none → row = none) ∧
    (∀ (store : StateStore) (e2e : CryptostoreData) (b : Bytes)
       (dec : Bytes → Except SQLStoreError Device) (e : SQLStoreError),
       store.e2e = some e2e → dec b = .error e →
       get_device store (some b) dec = .error e) ∧
    (∀ (store : StateStore) (row : Option Bytes)
       (dec : Bytes → Except SQLStoreError UserIdentity) (r : Option UserIdentity),
       get_user_identity store row dec = .ok r → r = none → row = none) ∧
    (∀ (store : StateStore) (e2e : CryptostoreData) (b : Bytes)
       (dec : Bytes → Except SQLStoreError UserIdentity) (e : SQLStoreError),
       store.e2e = some e2e → dec b = .error e →
       get_user_identity store (some b) dec = .error e) ∧
    (∀ (store : StateStore) (row : Option Bytes)
       (dec : Bytes → Except SQLStoreError GossipRequest) (r : Option GossipRequest),
       get_outgoing_key_request store row dec = .ok r → r = none → row = none) ∧
    (∀ (store : StateStore) (e2e : CryptostoreData) (b : Bytes)
       (dec : Bytes → Except SQLStoreError GossipRequest) (e : SQLStoreError),
       store.e2e = some e2e → dec b = .error e →
       get_outgoing_key_request store (some b) dec = .error e) ∧
    (∀ (store : StateStore) (rowV rowR : Option Bytes)
       (decV : Bytes → Except SQLStoreError String)
       (decR : Bytes → Except SQLStoreError Bytes) (bk : BackupKeys),
       load_backup_keys store rowV rowR decV decR = .ok bk →
       (bk.backup_version = none → rowV = none) ∧
       (bk.recovery_key = none → rowR = none)) ∧
    (∀ (store : StateStore) (e2e : CryptostoreData) (b : Bytes)
       (rowR : Option Bytes) (decV : Bytes → Except SQLStoreError String)
       (decR : Bytes → Except SQLStoreError Bytes) (e : SQLStoreError),
       store.e2e = some e2e → decV b = .error e →
       load_backup_keys store (some b) rowR decV decR = .error e) := by
  refine ⟨?_, ?_, ?_, ?_, ?_, ?_, ?_, ?_, ?_, ?_, ?_, ?_, ?_, ?_⟩
  · intro store row dec p h hp
    unfold load_account ensure_e2e at h
    cases hs : store.e2e with
    | none => rw [hs] at h; exact absurd h (by simp)
    | some e2e =>
        rw [hs] at h
        dsimp only at h
        cases row with
        | none => rfl
        | some b =>
            dsimp only at h
            cases hb : dec b <;> rw [hb] at h <;> dsimp only at h
            · exact absurd h (by simp)
            · simp only [Except.ok.injEq] at h
              rw [← h] at hp
              exact absurd hp (by simp)
  · intro store e2e b dec e hs hd
    unfold load_account ensure_e2e
    rw [hs]
    dsimp only
    rw [hd]
  · intro store row dec r h hr
    unfold load_identity ensure_e2e at h
    cases hs : store.e2e with
    | none => rw [hs] at h; exact absurd h (by simp)
    | some e2e =>
        rw [hs] at h
        dsimp only at h
        exact transposeDec_ok_none dec row (by rw [h, hr])
  · intro store e2e b dec e hs hd
    unfold load_identity ensure_e2e
    rw [hs]
    dsimp only
    exact transposeDec_error dec b e hd
  · intro store roomId senderKey sessionId row dec p h hp
    unfold get_inbound_group_session ensure_e2e at h
    cases hs : store.e2e with
    | none => rw [hs] at h; exact absurd h (by simp)
    | some e2e =>
        rw [hs] at h
        dsimp only at h
        cases hcache : groupSessionsGet e2e.caches.groupSessions roomId senderKey sessionId with
        | some v =>
            rw [hcache] at h
            dsimp only at h
            simp only [Except.ok.injEq] at h
            rw [← h] at hp
            exact absurd hp (by simp)
        | none =>
            rw [hcache] at h
            dsimp only at h
            cases row with
            | none => rfl
            | some b =>
                dsimp only at h
                cases hb : dec b <;> rw [hb] at h <;> dsimp only at h
                · exact absurd h (by simp)
                · simp only [Except.ok.injEq] at h
                  rw [← h] at hp
                  exact absurd hp (by simp)
  · intro store e2e roomId senderKey sessionId b dec e hs hcache hd
    unfold get_inbound_group_session ensure_e2e
    rw [hs]
    dsimp only
    rw [hcache]
    dsimp only
    rw [hd]
  · intro store row dec r h hr
    unfold get_device ensure_e2e at h
    cases hs : store.e2e with
    | none => rw [hs] at h; exact absurd h (by simp)
    | some e2e =>
        rw [hs] at h
        dsimp only at h
        exact transposeDec_ok_none dec row (by rw [h, hr])
  · intro store e2e b dec e hs hd
    unfold get_device ensure_e2e
    rw [hs]
    dsimp only
    exact transposeDec_error dec b e hd
  · intro store row dec r h hr
    unfold get_user_identity ensure_e2e at h
    cases hs : store.e2e with
    | none => rw [hs] at h; exact absurd h (by simp)
    | some e2e =>
        rw [hs] at h
        dsimp only at h
        exact transposeDec_ok_none dec row (by rw [h, hr])
  · intro store e2e b dec e hs hd
    unfold get_user_identity ensure_e2e
    rw [hs]
    dsimp only
    exact transposeDec_error dec b e hd
  · intro store row dec r h hr
    unfold get_outgoing_key_request ensure_e2e at h
    cases hs : store.e2e with
    | none => rw [hs] at h; exact absurd h (by simp)
    | some e2e =>
        rw [hs] at h
        dsimp only at h
        exact transposeDec_ok_none dec row (by rw [h, hr])
  · intro store e2e b dec e hs hd
    unfold get_outgoing_key_request ensure_e2e
    rw [hs]
    dsimp only
    exact transposeDec_error dec b e hd
  · intro store rowV rowR decV decR bk h
    unfold load_backup_keys ensure_e2e at h
    cases hs : store.e2e with
    | none => rw [hs] at h; exact absurd h (by simp)
    | some e2e =>
        rw [hs] at h
        dsimp only at h
        cases hv : transposeDec decV rowV with
        | error e => rw [hv] at h; exact absurd h (by simp)
        | ok bv =>
            rw [hv] at h
            dsimp only at h
            cases hk : transposeDec decR rowR with
            | error e => rw [hk] at h; exact absurd h (by simp)
            | ok rk =>
                rw [hk] at h
                simp only [Except.ok.injEq] at h
                rw [← h]
                constructor
                · intro hbv
                  simp only at hbv
                  exact transposeDec_ok_none decV rowV (by rw [hv, hbv])
                · intro hrk
                  simp only at hrk
                  exact transposeDec_ok_none decR rowR (by rw [hk, hrk])
  · intro store e2e b rowR decV decR e hs hd
    unfold load_backup_keys ensure_e2e
    rw [hs]
    dsimp only
    rw [transposeDec_error decV b e hd]

/-- Witness for C8: a decoder failure on a present device row propagates. -/
theorem loads_never_downgrade_errors_witness :
    get_device unlockedStore (some [1, 2])
      (fun _ => .error .Envelope) = .error .Envelope :=
  loads_never_downgrade_errors.2.2.2.2.2.2.2.1 unlockedStore
    ⟨none, emptyCaches⟩ [1, 2] (fun _ => .error .Envelope) .Envelope rfl rfl

/-! ### C9: `get_sessions` demands AccountInfo before consulting rows. -/

/-- C9: on a session-cache miss `get_sessions` fails with
`MissingAccountInfo` whenever the AccountInfo slot is unset, even when no
rows exist for the sender key; and an absent result is only ever produced
on the cache-miss path after the AccountInfo check has succeeded. -/
theorem get_sessions_missing_account_info :
    (∀ (store : StateStore) (e2e : CryptostoreData) (senderKey : String)
       (rows : List Bytes) (dec : Bytes → Except SQLStoreError PickledSession),
       store.e2e = some e2e →
       sessionsGet e2e.caches.sessions senderKey = none →
       e2e.caches.account = none →
       get_sessions store senderKey rows dec = .error .MissingAccountInfo) ∧
    (∀ (store : StateStore) (senderKey : String) (rows : List Bytes)
       (dec : Bytes → Except SQLStoreError PickledSession)
       (p : Option (List Session) × StateStore),
       get_sessions store senderKey rows dec = .ok p → p.1 = none →
       ∃ e2e, store.e2e = some e2e ∧
         sessionsGet e2e.caches.sessions senderKey = none ∧
         e2e.caches.account ≠ none) := by
  constructor
  · intro store e2e senderKey rows dec hs hmiss hacc
    unfold get_sessions ensure_e2e
    rw [hs]
    dsimp only
    rw [hmiss]
    dsimp only
    rw [hacc]
  · intro store senderKey rows dec p h hp
    unfold get_sessions ensure_e2e at h
    cases hs : store.e2e with
    | none => rw [hs] at h; exact absurd h (by simp)
    | some e2e =>
        rw [hs] at h
        dsimp only at h
        refine ⟨e2e, rfl, ?_⟩
        cases hmiss : sessionsGet e2e.caches.sessions senderKey with
        | some v =>
            rw [hmiss] at h
            dsimp only at h
            simp only [Except.ok.injEq] at h
            rw [← h] at hp
            exact absurd hp (by simp)
        | none =>
            rw [hmiss] at h
            dsimp only at h
            refine ⟨rfl, ?_⟩
            cases hacc : e2e.caches.account with
            | none => rw [hacc] at h; exact absurd h (by simp)
            | some info => simp

/-- Witness for C9: a freshly unlocked store (no account loaded, empty
cache, no rows) fails with `MissingAccountInfo`. -/
theorem get_sessions_missing_account_info_witness :
    get_sessions unlockedStore "curve25519key" []
      (fun _ => .error .Envelope) = .error .MissingAccountInfo :=
  get_sessions_missing_account_info.1 unlockedStore ⟨none, emptyCaches⟩
    "curve25519key" [] (fun _ => .error .Envelope) rfl rfl rfl

/-! ### C1: key blinding of the lookup columns. -/

/-- Modelled from the spec (invariant I1), for comparison with the code:
with a cipher installed there is a tag for each logical lookup column such
that every primary or secondary key value written to or queried from the
database — including the olm message-hash sender key and hash — is the
blinding of the raw domain value under that column's tag. -/
def specKeyBlinding (c : StoreCipher) : Prop :=
  ∃ (tagSessionSender tagIgsRoom tagIgsSender tagIgsSession tagOgsRoom
     tagDevUser tagDevDevice tagIdUser tagGossipRecipient tagGossipRequest
     tagGossipInfo tagTrackedUser tagMhSender tagMhHash : String),
    (∀ s : Session, (session_store_op (some c) s).params.take 1 =
      [blindedBlob c tagSessionSender s.senderKey]) ∧
    (∀ g : InboundGroupSession,
      (inbound_group_session_upsert_op (some c) g).params.take 3 =
      [blindedBlob c tagIgsRoom g.roomId,
       blindedBlob c tagIgsSender g.senderKey,
       blindedBlob c tagIgsSession g.sessionId]) ∧
    (∀ o : OutboundGroupSession,
      (outbound_group_session_store_op (some c) o).params.take 1 =
      [blindedBlob c tagOgsRoom o.roomId]) ∧
    (∀ d : Device, (device_upsert_op (some c) d).params.take 2 =
      [blindedBlob c tagDevUser d.userId,
       blindedBlob c tagDevDevice d.deviceId]) ∧
    (∀ i : UserIdentity, (identity_upsert_op (some c) i).params.take 1 =
      [blindedBlob c tagIdUser i.userId]) ∧
    (∀ r : GossipRequest, (gossip_request_store_op (some c) r).params.take 3 =
      [blindedBlob c tagGossipRecipient r.requestRecipient,
       blindedBlob c tagGossipRequest r.requestId,
       blindedBlob c tagGossipInfo r.infoKey]) ∧
    (∀ (u : String) (dirty : Bool),
      (tracked_user_upsert_op (some c) u dirty).params.take 1 =
      [blindedBlob c tagTrackedUser u]) ∧
    (∀ mh : MessageHash, (olm_message_hash_store_op mh).params.take 2 =
      [blindedBlob c tagMhSender mh.senderKey,
       blindedBlob c tagMhHash mh.hash]) ∧
    (∀ mh : MessageHash, (message_known_op mh).params.take 2 =
      [blindedBlob c tagMhSender mh.senderKey,
       blindedBlob c tagMhHash mh.hash])

/-- A concrete installed cipher whose blinding prefixes a marker byte, so a
blinded key is never the raw value. -/
def cexCipher : StoreCipher := ⟨fun _ k => 0 :: k, fun v => 0 :: v⟩

/-- Counterexample to C1: under an installed cipher the olm message-hash
write binds the raw sender key and hash as plain strings, so no choice of
column tags makes the spec's blinding invariant hold. -/
theorem message_hash_keys_not_blinded : ¬ specKeyBlinding cexCipher := by
  intro hspec
  obtain ⟨t1, t2, t3, t4, t5, t6, t7, t8, t9, t10, t11, t12, t13, t14, h⟩ := hspec
  have hmh := h.2.2.2.2.2.2.2.1 ⟨"sk", "h"⟩
  simp [olm_message_hash_store_op, blindedBlob] at hmh

/-- C1 as amended: every lookup column except the two olm message-hash
columns is bound as the blinding of its raw value under the column tag the
source fixes (the outbound-group-session room id reusing the
inbound-group-session room tag); the message-hash sender key and hash are
bound as the raw strings, unblinded, on both the write and the query
path. -/
theorem lookup_keys_blinded_except_message_hash (c : StoreCipher) :
    (∀ s : Session, (session_store_op (some c) s).params =
      [blindedBlob c "cryptostore_session:sender_key" s.senderKey,
       .blob (encode_value (some c) s.pickle)]) ∧
    (∀ senderKey : String, (sessions_for_user_query_op (some c) senderKey).params =
      [blindedBlob c "cryptostore_session:sender_key" senderKey]) ∧
    (∀ g : InboundGroupSession,
      (inbound_group_session_upsert_op (some c) g).params =
      [blindedBlob c "cryptostore_inbound_group_session:room_id" g.roomId,
       blindedBlob c "cryptostore_inbound_group_session:sender_key" g.senderKey,
       blindedBlob c "cryptostore_inbound_group_session:session_id" g.sessionId,
       .blob (encode_value (some c) g.pickle)]) ∧
    (∀ roomId senderKey sessionId : String,
      (inbound_group_session_fetch_op (some c) roomId senderKey sessionId).params =
      [blindedBlob c "cryptostore_inbound_group_session:room_id" roomId,
       blindedBlob c "cryptostore_inbound_group_session:sender_key" senderKey,
       blindedBlob c "cryptostore_inbound_group_session:session_id" sessionId]) ∧
    (∀ o : OutboundGroupSession,
      (outbound_group_session_store_op (some c) o).params =
      [blindedBlob c "cryptostore_inbound_group_session:room_id" o.roomId,
       .blob (encode_value (some c) o.pickle)]) ∧
    (∀ roomId : String, (outbound_group_session_load_op (some c) roomId).params =
      [blindedBlob c "cryptostore_inbound_group_session:room_id" roomId]) ∧
    (∀ d : Device, (device_upsert_op (some c) d).params =
      [blindedBlob c "cryptostore_device:user_id" d.userId,
       blindedBlob c "cryptostore_device:device_id" d.deviceId,
       .blob (encode_value (some c) d.info)]) ∧
    (∀ d : Device, (device_delete_op (some c) d).params =
      [blindedBlob c "cryptostore_device:user_id" d.userId,
       blindedBlob c "cryptostore_device:device_id" d.deviceId]) ∧
    (∀ userId deviceId : String, (device_fetch_op (some c) userId deviceId).params =
      [blindedBlob c "cryptostore_device:user_id" userId,
       blindedBlob c "cryptostore_device:device_id" deviceId]) ∧
    (∀ userId : String, (devices_for_user_op (some c) userId).params =
      [blindedBlob c "cryptostore_device:user_id" userId]) ∧
    (∀ i : UserIdentity, (identity_upsert_op (some c) i).params =
      [blindedBlob c "cryptostore_identity:user_id" i.userId,
       .blob (encode_value (some c) i.data)]) ∧
    (∀ userId : String, (identity_fetch_op (some c) userId).params =
      [blindedBlob c "cryptostore_identity:user_id" userId]) ∧
    (∀ r : GossipRequest, (gossip_request_store_op (some c) r).params =
      [blindedBlob c "cryptostore_gossip_request:recipient_id" r.requestRecipient,
       blindedBlob c "cryptostore_gossip_request:request_id" r.requestId,
       blindedBlob c "cryptostore_gossip_request:info_key" r.infoKey,
       .boolean r.sentOut,
       .blob (encode_value (some c) r.data)]) ∧
    (∀ requestId : String, (gossip_request_fetch_op (some c) requestId).params =
      [blindedBlob c "cryptostore_gossip_request:request_id" requestId]) ∧
    (∀ infoKey : String, (gossip_request_info_fetch_op (some c) infoKey).params =
      [blindedBlob c "cryptostore_gossip_request:info_key" infoKey]) ∧
    (∀ requestId : String, (gossip_request_delete_op (some c) requestId).params =
      [blindedBlob c "cryptostore_gossip_request:request_id" requestId]) ∧
    (∀ (u : String) (dirty : Bool), (tracked_user_upsert_op (some c) u dirty).params =
      [blindedBlob c "cryptostore_tracked_user:user_id" u,
       .blob (encode_value (some c) (trackedUserBytes u dirty))]) ∧
    (∀ mh : MessageHash, (olm_message_hash_store_op mh).params =
      [.str mh.senderKey, .str mh.hash]) ∧
    (∀ mh : MessageHash, (message_known_op mh).params =
      [.str mh.senderKey, .str mh.hash]) := by
  refine ⟨fun _ => rfl, fun _ => rfl, fun _ => rfl, fun _ _ _ => rfl, fun _ => rfl,
    fun _ => rfl, fun _ => rfl, fun _ => rfl, fun _ _ => rfl, fun _ => rfl,
    fun _ => rfl, fun _ => rfl, fun _ => rfl, fun _ => rfl, fun _ => rfl,
    fun _ => rfl, fun _ _ => rfl, fun _ => rfl, fun _ => rfl⟩

/-! ### Transaction lemmas shared by the change-set claims. -/

/-- The cipher visible through a transaction state's E2E slot. -/
def tsCipher (s : TS) : Option StoreCipher :=
  match s.e2e with
  | none => none
  | some e2e => e2e.cipher

theorem runStep_ok (budget : Nat) (step : TxnStep) (s s' : TS)
    (h : runStep budget step s = (none, s')) :
    s'.txn.ops = s.txn.ops ++ [stepOpAt (tsCipher s) step] ∧
    tsCipher s' = tsCipher s := by
  cases step with
  | rawStep op =>
      unfold runStep execStmt at h
      dsimp only at h
      by_cases hb : s.txn.execCount < budget
      · rw [if_pos hb] at h
        dsimp only at h
        simp only [Prod.mk.injEq] at h
        rw [← h.2]
        exact ⟨rfl, rfl⟩
      · rw [if_neg hb] at h
        dsimp only at h
        exact absurd h (by simp)
  | e2eStep pre mkOp post =>
      unfold runStep at h
      dsimp only at h
      cases he : s.e2e with
      | none => rw [he] at h; exact absurd h (by simp)
      | some e2e =>
          rw [he] at h
          dsimp only at h
          unfold execStmt at h
          by_cases hb : s.txn.execCount < budget
          · rw [if_pos hb] at h
            dsimp only at h
            simp only [Prod.mk.injEq] at h
            rw [← h.2]
            unfold tsCipher stepOpAt
            rw [he]
            exact ⟨rfl, rfl⟩
          · rw [if_neg hb] at h
            dsimp only at h
            exact absurd h (by simp)

theorem runSteps_ok (budget : Nat) (steps : List TxnStep) :
    ∀ s s', runSteps budget steps s = (none, s') →
      s'.txn.ops = s.txn.ops ++ steps.map (stepOpAt (tsCipher s)) ∧
      tsCipher s' = tsCipher s := by
  induction steps with
  | nil =>
      intro s s' h
      unfold runSteps at h
      simp only [Prod.mk.injEq] at h
      rw [← h.2]
      simp
  | cons step rest ih =>
      intro s s' h
      unfold runSteps at h
      cases h1 : runStep budget step s with
      | mk err s1 =>
          rw [h1] at h
          cases err with
          | some e => exact absurd h (by simp)
          | none =>
              dsimp only at h
              obtain ⟨hops1, hc1⟩ := runStep_ok budget step s s1 h1
              obtain ⟨hops2, hc2⟩ := ih s1 s' h
              refine ⟨?_, hc2.trans hc1⟩
              rw [hops2, hops1, hc1]
              simp

theorem stepOpAt_sessionStep (cipher : Option StoreCipher) :
    stepOpAt cipher ∘ sessionStep = session_store_op cipher :=
  funext fun _ => rfl

theorem stepOpAt_messageHashStep (cipher : Option StoreCipher) :
    stepOpAt cipher ∘ messageHashStep = olm_message_hash_store_op :=
  funext fun _ => rfl

theorem stepOpAt_inboundStep (cipher : Option StoreCipher) :
    stepOpAt cipher ∘ inboundStep = inbound_group_session_upsert_op cipher :=
  funext fun _ => rfl

theorem stepOpAt_outboundStep (cipher : Option StoreCipher) :
    stepOpAt cipher ∘ outboundStep = outbound_group_session_store_op cipher :=
  funext fun _ => rfl

theorem stepOpAt_gossipStep (cipher : Option StoreCipher) :
    stepOpAt cipher ∘ gossipStep = gossip_request_store_op cipher :=
  funext fun _ => rfl

theorem stepOpAt_cryptoIdentityStep (cipher : Option StoreCipher) :
    stepOpAt cipher ∘ cryptoIdentityStep = identity_upsert_op cipher :=
  funext fun _ => rfl

theorem stepOpAt_deviceStep (cipher : Option StoreCipher) :
    stepOpAt cipher ∘ deviceStep = device_upsert_op cipher :=
  funext fun _ => rfl

theorem stepOpAt_deviceDeleteStep (cipher : Option StoreCipher) :
    stepOpAt cipher ∘ deviceDeleteStep = device_delete_op cipher :=
  funext fun _ => rfl

theorem stepsOfChanges_map (cipher : Option StoreCipher) (ch : Changes) :
    (stepsOfChanges ch).map (stepOpAt cipher) = changesOps cipher ch := by
  obtain ⟨acc, pi, bv, rk, ses, mh, igs, ogs, kr, ids, devs⟩ := ch
  cases acc <;> cases pi <;> cases bv <;> cases rk <;>
    simp [stepsOfChanges, changesOps, optSteps, stepOpAt, accountStep,
      identityStep, backupVersionStep, recoveryKeyStep, List.map_map,
      stepOpAt_sessionStep, stepOpAt_messageHashStep, stepOpAt_inboundStep,
      stepOpAt_outboundStep, stepOpAt_gossipStep, stepOpAt_cryptoIdentityStep,
      stepOpAt_deviceStep, stepOpAt_deviceDeleteStep]

theorem save_changes_error_db (budget : Nat) (ch : Changes) (store : StateStore)
    (e : SQLStoreError) (store' : StateStore)
    (h : save_changes budget ch store = (some e, store')) : store'.db = store.db := by
  unfold save_changes at h
  cases hrun : save_changes_txn budget ch { txn := ⟨[], 0⟩, e2e := store.e2e } with
  | mk err s =>
      rw [hrun] at h
      cases err with
      | some e1 =>
          dsimp only at h
          simp only [Prod.mk.injEq] at h
          rw [← h.2]
      | none =>
          dsimp only at h
          by_cases hc : s.txn.execCount < budget
          · rw [if_pos hc] at h
            exact absurd h (by simp)
          · rw [if_neg hc] at h
            simp only [Prod.mk.injEq] at h
            rw [← h.2]

theorem save_changes_ok_db (budget : Nat) (ch : Changes) (store : StateStore)
    (e2e : CryptostoreData) (store' : StateStore) (he : store.e2e = some e2e)
    (h : save_changes budget ch store = (none, store')) :
    store'.db = store.db ++ changesOps e2e.cipher ch := by
  unfold save_changes at h
  cases hrun : save_changes_txn budget ch { txn := ⟨[], 0⟩, e2e := store.e2e } with
  | mk err s =>
      rw [hrun] at h
      cases err with
      | some e1 => exact absurd h (by simp)
      | none =>
          dsimp only at h
          by_cases hc : s.txn.execCount < budget
          · rw [if_pos hc] at h
            simp only [Prod.mk.injEq] at h
            rw [← h.2]
            obtain ⟨hops, _⟩ := runSteps_ok budget (stepsOfChanges ch) _ s hrun
            have hcip : tsCipher { txn := (⟨[], 0⟩ : TxnCtx), e2e := store.e2e } =
                e2e.cipher := by
              unfold tsCipher
              rw [he]
            rw [hops, hcip, stepsOfChanges_map]
            simp
          · rw [if_neg hc] at h
            exact absurd h (by simp)

/-! ### C4: ordered, atomic change-set application. -/

/-- C4: `save_changes` applies a change-set inside one transaction in the
fixed order spelled out by `changesOps` (account, private identity, backup
version, recovery key, sessions, message hashes, inbound group sessions,
outbound group sessions, key requests, identities changed-then-new, devices
changed-then-new, device deletions); a successful call appends exactly that
statement list to the database and a failed call appends nothing. -/
theorem save_changes_ordered_atomic (budget : Nat) (ch : Changes)
    (store : StateStore) (e2e : CryptostoreData) (h : store.e2e = some e2e) :
    (∀ store', save_changes budget ch store = (none, store') →
       store'.db = store.db ++ changesOps e2e.cipher ch) ∧
    (∀ err store', save_changes budget ch store = (some err, store') →
       store'.db = store.db) := by
  constructor
  · intro store' hs
    exact save_changes_ok_db budget ch store e2e store' h hs
  · intro err store' hs
    exact save_changes_error_db budget ch store err store' hs

/-- A change-set touching an account and a message hash, for the witness. -/
def w4Changes : Changes :=
  { emptyChanges with
    account := some ⟨"@a:example.org", "DEVICEID", "identitykeys", [1]⟩,
    message_hashes := [⟨"senderkey", "hashvalue"⟩] }

/-- Witness for C4: with enough budget the two statements land in order. -/
theorem save_changes_ordered_atomic_witness :
    (save_changes 3 w4Changes unlockedStore).2.db =
      [] ++ changesOps none w4Changes :=
  (save_changes_ordered_atomic 3 w4Changes unlockedStore ⟨none, emptyCaches⟩ rfl).1
    (save_changes 3 w4Changes unlockedStore).2 rfl

/-! ### C2: caches are not transactional. -/

/-- A session and a device used by the cache-coherence counterexample. -/
def sessA : Session := ⟨"curve25519key", [7]⟩

/-- The device whose statement is made to fail. -/
def devA : Device := ⟨"@b:example.org", "DEVICEID", [9]⟩

/-- A change-set with one session then one device. -/
def c2Changes : Changes :=
  { emptyChanges with sessions := [sessA], devices := ⟨[devA], [], []⟩ }

/-- Counterexample to C2: with a budget of one statement, the session save
succeeds and adds to the session cache, the device save then fails, the
transaction never commits (the database log is unchanged) — yet the session
cache already holds the new entry, leading the persisted state. -/
theorem cache_mutated_without_commit :
    (save_changes 1 c2Changes unlockedStore).1 = some .Backend ∧
    ((save_changes 1 c2Changes unlockedStore).2.e2e.map
      (fun e2e => e2e.caches.sessions)) = some [sessA] ∧
    (save_changes 1 c2Changes unlockedStore).2.db = [] :=
  ⟨rfl, rfl, rfl⟩

/-- C2 as amended: an execution that errors before commit leaves the
persistent database unchanged (the transaction rolls back), but each
repository save mutates its cache immediately after its own statement
succeeds, inside the still-uncommitted transaction — so a failed change-set
may leave cache entries that lead the persisted state. -/
theorem rollback_leaves_db_unchanged_caches_eager :
    (∀ (budget : Nat) (ch : Changes) (store : StateStore) (e : SQLStoreError)
       (store' : StateStore),
       save_changes budget ch store = (some e, store') →
       store'.db = store.db) ∧
    (∀ (budget : Nat) (sess : Session) (ts : TS) (e2e : CryptostoreData)
       (ts' : TS), ts.e2e = some e2e →
       save_session budget sess ts = (none, ts') →
       ts'.e2e = some { e2e with caches :=
         { e2e.caches with sessions := e2e.caches.sessions ++ [sess] } } ∧
       ts'.txn.ops = ts.txn.ops ++ [session_store_op e2e.cipher sess]) := by
  constructor
  · intro budget ch store e store' hs
    exact save_changes_error_db budget ch store e store' hs
  · intro budget sess ts e2e ts' he h
    unfold save_session runStep sessionStep execStmt at h
    rw [he] at h
    dsimp only at h
    by_cases hb : ts.txn.execCount < budget
    · rw [if_pos hb] at h
      dsimp only at h
      simp only [Prod.mk.injEq] at h
      rw [← h.2]
      exact ⟨rfl, rfl⟩
    · rw [if_neg hb] at h
      dsimp only at h
      exact absurd h (by simp)

/-- Witness for C2 as amended: a zero budget fails the first statement and
leaves the database log untouched. -/
theorem rollback_leaves_db_unchanged_caches_eager_witness :
    (save_changes 0 c2Changes unlockedStore).2.db = unlockedStore.db :=
  rollback_leaves_db_unchanged_caches_eager.1 0 c2Changes unlockedStore
    .Backend (save_changes 0 c2Changes unlockedStore).2 rfl

/-! ### C3: the Locked precondition and its two exceptions. -/

/-- The message hash of the lock-bypass counterexample. -/
def mhA : MessageHash := ⟨"senderkey", "hashvalue"⟩

/-- A change-set carrying only a message hash. -/
def mhChanges : Changes := { emptyChanges with message_hashes := [mhA] }

/-- Counterexample to C3: on a store that has never been unlocked, a
change-set carrying only a message hash commits successfully and writes
the row, and `is_message_known` then reads it back — neither operation
fails with `Locked`. -/
theorem message_hash_ops_bypass_lock :
    (save_changes 2 mhChanges lockedStore).1 = none ∧
    (save_changes 2 mhChanges lockedStore).2.db =
      [olm_message_hash_store_op mhA] ∧
    is_message_known (save_changes 2 mhChanges lockedStore).2 mhA = .ok true ∧
    (save_message_hash 1 mhA ⟨⟨[], 0⟩, none⟩).1 = none :=
  ⟨rfl, rfl, rfl, rfl⟩

/-- C3 as amended: every repository operation except `save_message_hash`
and `is_message_known` fails with `Locked` before the store is unlocked;
those two carry no unlock check and reach the database while locked. -/
theorem repository_ops_require_unlock (store : StateStore)
    (h : store.e2e = none) :
    (∀ row dec, load_account store row dec = .error .Locked) ∧
    (∀ row dec, load_identity store row dec = .error .Locked) ∧
    (∀ rowV rowR decV decR,
       load_backup_keys store rowV rowR decV decR = .error .Locked) ∧
    (∀ senderKey rows dec,
       get_sessions store senderKey rows dec = .error .Locked) ∧
    (∀ roomId senderKey sessionId row dec,
       get_inbound_group_session store roomId senderKey sessionId row dec =
         .error .Locked) ∧
    (∀ rows dec, get_inbound_group_sessions store rows dec = .error .Locked) ∧
    (∀ rows dec,
       inbound_group_session_counts store rows dec = .error .Locked) ∧
    (∀ limit rows dec,
       inbound_group_sessions_for_backup store limit rows dec = .error .Locked) ∧
    (∀ row dec, get_outbound_group_sessions store row dec = .error .Locked) ∧
    (∀ row dec, get_device store row dec = .error .Locked) ∧
    (∀ rows dec, get_user_devices store rows dec = .error .Locked) ∧
    (∀ row dec, get_user_identity store row dec = .error .Locked) ∧
    (∀ row dec, get_outgoing_key_request store row dec = .error .Locked) ∧
    (∀ row dec, get_secret_request_by_info store row dec = .error .Locked) ∧
    (∀ rows dec, get_unsent_secret_requests store rows dec = .error .Locked) ∧
    (∀ requestId,
       delete_outgoing_secret_requests store requestId = .error .Locked) ∧
    (∀ user dirty, save_tracked_user store user dirty = .error .Locked) ∧
    (∀ user dirty, update_tracked_user store user dirty = .error .Locked) ∧
    (∀ rows dec, (load_tracked_users store rows dec).1 = some .Locked) ∧
    (∀ budget sess t, (save_session budget sess ⟨t, store.e2e⟩).1 =
       some .Locked) ∧
    (∀ budget igs t,
       (save_inbound_group_session budget igs ⟨t, store.e2e⟩).1 =
         some .Locked) ∧
    (∀ budget d t, (save_device budget d ⟨t, store.e2e⟩).1 = some .Locked) ∧
    (∀ budget d t, (delete_device budget d ⟨t, store.e2e⟩).1 =
       some .Locked) := by
  refine ⟨?_, ?_, ?_, ?_, ?_, ?_, ?_, ?_, ?_, ?_, ?_, ?_, ?_, ?_, ?_, ?_, ?_,
    ?_, ?_, ?_, ?_, ?_, ?_⟩ <;> intros <;>
    simp [load_account, load_identity, load_backup_keys, get_sessions,
      get_inbound_group_session, get_inbound_group_sessions,
      inbound_group_session_counts, inbound_group_sessions_for_backup,
      get_outbound_group_sessions, get_device, get_user_devices,
      get_user_identity, get_outgoing_key_request, get_secret_request_by_info,
      get_unsent_secret_requests, delete_outgoing_secret_requests,
      save_tracked_user, update_tracked_user, load_tracked_users,
      save_session, save_inbound_group_session, save_device, delete_device,
      runStep, sessionStep, inboundStep, deviceStep, deviceDeleteStep,
      ensure_e2e, h]

/-- Witness for C3 as amended: `load_account` on the locked store. -/
theorem repository_ops_require_unlock_witness :
    load_account lockedStore none
      (fun _ => .error .Envelope) = .error .Locked :=
  (repository_ops_require_unlock lockedStore rfl).1 none
    (fun _ => .error .Envelope)

end SqlCryptoStore
